import Mathlib

/-!
Shallow embedding of the user CRUD backend (axum + postgres repository):
models, validation, the partial-update repository, the error classifier,
and the HTTP handlers, together with theorems settling the spec claims.
-/

namespace UserCrud

/-- Model of a UTC timestamp (chrono DateTime with Utc), split into calendar
fields; the repository only stores and re-renders it. -/
structure DateTimeUtc where
  year : Nat
  month : Nat
  day : Nat
  hour : Nat
  minute : Nat
  second : Nat
  nanosecond : Nat
deriving DecidableEq, Repr

/-- models/user.rs: struct User (row of the test_users table). -/
structure User where
  id : Int
  name : String
  email : String
  active : Bool
  created_at : DateTimeUtc
deriving DecidableEq, Repr

/-- models/user.rs: struct UserResponse (API projection of User). -/
structure UserResponse where
  id : String
  name : String
  email : String
  active : Bool
  created_at : String
deriving DecidableEq, Repr

/-- models/user.rs: struct CreateUserRequest. -/
structure CreateUserRequest where
  name : String
  email : String
deriving DecidableEq, Repr

/-- models/user.rs: struct UpdateUserRequest (all three fields optional). -/
structure UpdateUserRequest where
  name : Option String
  email : Option String
  active : Option Bool
deriving DecidableEq, Repr

/-- A persistence-layer failure, identified by its displayed message
(the handlers only inspect the message text). -/
structure SqlxError where
  msg : String
deriving DecidableEq, Repr

/-- error.rs: enum AppError. -/
inductive AppError where
  | internalServerError (msg : String)
  | badRequest (msg : String)
  | notFound (msg : String)
deriving DecidableEq, Repr

/-- The JSON error body rendered by AppError::into_response. -/
structure ErrorBody where
  success : Bool
  message : String
deriving DecidableEq, Repr

/-- error.rs: AppError::into_response, as an HTTP status code paired with
the JSON body. -/
def AppError.into_response : AppError → Nat × ErrorBody
  | .internalServerError msg => (500, ⟨false, msg⟩)
  | .badRequest msg => (400, ⟨false, msg⟩)
  | .notFound msg => (404, ⟨false, msg⟩)

/-- Fuel-driven decimal digit production, most significant digit first
(model of the decimal rendering used by integer to_string). -/
def natDigitsAux : Nat → Nat → List Char → List Char
  | 0, _, acc => acc
  | fuel + 1, n, acc =>
    if n < 10 then Nat.digitChar n :: acc
    else natDigitsAux fuel (n / 10) (Nat.digitChar (n % 10) :: acc)

/-- Decimal digits of a natural number, most significant first. -/
def natDigits (n : Nat) : List Char :=
  natDigitsAux (n + 1) n []

/-- Model of Rust i32::to_string: decimal representation with a leading
minus sign for negative values. -/
def intToString (i : Int) : String :=
  if i < 0 then String.mk ('-' :: natDigits i.natAbs)
  else String.mk (natDigits i.natAbs)

/-- Left-pad the decimal rendering of n with zeros to width w. -/
def padNum (w n : Nat) : String :=
  String.mk (List.replicate (w - (natDigits n).length) '0' ++ natDigits n)

/-- Fractional-second part of the RFC 3339 rendering: empty for zero
nanoseconds, otherwise 3, 6 or 9 digits depending on the finest nonzero
unit (model of chrono SecondsFormat AutoSi). -/
def fracPart (ns : Nat) : String :=
  if ns = 0 then ""
  else if ns % 1000000 = 0 then "." ++ padNum 3 (ns / 1000000)
  else if ns % 1000 = 0 then "." ++ padNum 6 (ns / 1000)
  else "." ++ padNum 9 ns

/-- Model of chrono DateTime::to_rfc3339 for a Utc timestamp: ISO-8601 /
RFC 3339 text with a +00:00 offset. -/
def toRfc3339 (t : DateTimeUtc) : String :=
  padNum 4 t.year ++ "-" ++ padNum 2 t.month ++ "-" ++ padNum 2 t.day ++ "T" ++
    padNum 2 t.hour ++ ":" ++ padNum 2 t.minute ++ ":" ++ padNum 2 t.second ++
    fracPart t.nanosecond ++ "+00:00"

/-- models/user.rs: From User for UserResponse / User::to_response. -/
def User.to_response (u : User) : UserResponse :=
  { id := intToString u.id
    name := u.name
    email := u.email
    active := u.active
    created_at := toRfc3339 u.created_at }

/-- Value of a list of decimal digit characters, most significant first. -/
def digitsVal (ds : List Char) : Nat :=
  ds.foldl (fun acc c => acc * 10 + (c.toNat - 48)) 0

/-- The 32-bit signed range check applied to the parsed value. -/
def i32InRange (v : Int) : Option Int :=
  if -2147483648 ≤ v ∧ v ≤ 2147483647 then some v else none

/-- Character-level body of the i32 parser: an optional sign followed by
at least one ASCII digit, whose value must fit in the 32-bit range. -/
def parseI32Core : List Char → Option Int
  | [] => none
  | c :: rest =>
    if c = '+' then
      if rest ≠ [] ∧ rest.all Char.isDigit then i32InRange (digitsVal rest)
      else none
    else if c = '-' then
      if rest ≠ [] ∧ rest.all Char.isDigit then i32InRange (-(digitsVal rest : Int))
      else none
    else
      if (c :: rest).all Char.isDigit then i32InRange (digitsVal (c :: rest))
      else none

/-- Model of Rust str::parse::<i32> as used on the {id} path parameter. -/
def parseI32 (s : String) : Option Int :=
  parseI32Core s.toList

/-- Modelled from the spec: the syntactic email check of the external
validation library (not part of this repository) — a nonempty local part,
a single at-sign, and a nonempty domain containing a dot that neither
starts nor ends the domain. -/
def validEmail (s : String) : Bool :=
  let cs := s.toList
  let lp := cs.takeWhile (fun c => !(c == '@'))
  match cs.dropWhile (fun c => !(c == '@')) with
  | '@' :: domain =>
    !lp.isEmpty && !domain.isEmpty && domain.contains '.' &&
      !(domain.contains '@') && !(domain.head? == some '.') &&
      !(domain.getLast? == some '.')
  | _ => false

/-- models/user.rs: the validate attributes of CreateUserRequest — name
must have length at least 1, email must pass the email check; all field
errors are collected. -/
def validateCreate (req : CreateUserRequest) : List (String × String) :=
  (if req.name.length < 1 then [("name", "Name cannot be empty")] else []) ++
    (if validEmail req.email then [] else [("email", "Invalid email format")])

/-- models/user.rs: the validate attributes of UpdateUserRequest — the
same field rules, applied only to present fields. -/
def validateUpdate (req : UpdateUserRequest) : List (String × String) :=
  (match req.name with
   | some n => if n.length < 1 then [("name", "Name cannot be empty")] else []
   | none => []) ++
    (match req.email with
     | some e => if validEmail e then [] else [("email", "Invalid email format")]
     | none => [])

/-- handlers/users.rs: the message built from validation field errors. -/
def validationErrorsMessage (errs : List (String × String)) : String :=
  "Validation errors: " ++
    String.intercalate ", " (errs.map (fun p => p.1 ++ ": " ++ p.2))

/-- Bool test: p occurs as a prefix of some suffix of s. -/
def containsSub (p : List Char) : List Char → Bool
  | [] => List.isPrefixOf p []
  | c :: t => List.isPrefixOf p (c :: t) || containsSub p t

/-- Model of Rust str::contains for a string pattern. -/
def strContains (s pat : String) : Bool :=
  containsSub pat.toList s.toList

/-- repository/user.rs: get_user_by_id — SELECT the row WHERE id matches,
fetched optionally (the first matching row, if any). -/
def get_user_by_id (db : List User) (id : Int) : Option User :=
  db.find? (fun u => u.id == id)

/-- One parameterized UPDATE ... WHERE id = $n RETURNING the full row:
every row whose id matches is rewritten by the column assignment, and the
first updated row (if any) is returned. -/
def runUpdate (db : List User) (id : Int) (set : User → User) :
    List User × Option User :=
  (db.map (fun u => if u.id == id then set u else u),
    (db.find? (fun u => u.id == id)).map set)

/-- repository/user.rs: update_user — an eight-branch match over the
presence of name, email and active; each branch issues an UPDATE that sets
exactly the present columns, and the all-absent branch performs a plain
fetch by id. -/
def update_user (db : List User) (id : Int) (user : UpdateUserRequest) :
    List User × Option User :=
  match user.name, user.email, user.active with
  | some name, some email, some active =>
    runUpdate db id (fun u => { u with name := name, email := email, active := active })
  | some name, some email, none =>
    runUpdate db id (fun u => { u with name := name, email := email })
  | some name, none, some active =>
    runUpdate db id (fun u => { u with name := name, active := active })
  | none, some email, some active =>
    runUpdate db id (fun u => { u with email := email, active := active })
  | some name, none, none =>
    runUpdate db id (fun u => { u with name := name })
  | none, some email, none =>
    runUpdate db id (fun u => { u with email := email })
  | none, none, some active =>
    runUpdate db id (fun u => { u with active := active })
  | none, none, none =>
    (db, get_user_by_id db id)

/-- repository/user.rs: delete_user — DELETE WHERE id matches, returning
whether rows_affected was positive. -/
def delete_user (db : List User) (id : Int) : List User × Bool :=
  (db.filter (fun u => !(u.id == id)),
    decide (0 < db.countP (fun u => u.id == id)))

/-- Modelled from the spec: the persistence layer enforces the unique
index on email, and a violation surfaces as an error whose displayed
message carries the duplicate-key indicator text. -/
def dupKeyMsg : String :=
  "error returned from database: duplicate key value violates unique constraint \"test_users_email_key\""

/-- repository/user.rs: create_user — INSERT name and email RETURNING the
row, with active defaulting to true and id and created_at generated by the
server (passed here as parameters); a duplicate email fails with the
unique-violation error. -/
def repo_create (db : List User) (req : CreateUserRequest) (newId : Int)
    (now : DateTimeUtc) : Except SqlxError (List User × User) :=
  if db.any (fun u => u.email == req.email) then
    .error ⟨dupKeyMsg⟩
  else
    let u : User := ⟨newId, req.name, req.email, true, now⟩
    .ok (db ++ [u], u)

/-- handlers/users.rs (create_user, error branch): a store failure whose
message contains a uniqueness-violation indicator becomes BadRequest,
anything else a generic internal error. -/
def classify_create_db_error (e : SqlxError) : AppError :=
  if strContains e.msg "duplicate key" || strContains e.msg "unique constraint" then
    .badRequest "Email address already exists"
  else
    .internalServerError "Failed to create user"

/-- handlers/users.rs (update_user, error branch): the same uniqueness
classification with the update-specific generic message. -/
def classify_update_db_error (e : SqlxError) : AppError :=
  if strContains e.msg "duplicate key" || strContains e.msg "unique constraint" then
    .badRequest "Email address already exists"
  else
    .internalServerError "Failed to update user"

/-- handlers/users.rs: create_user — validate, then insert, then classify
any store failure; the result pairs the post-call store with the HTTP
outcome (status and response, or AppError). -/
def create_user_handler (db : List User) (payload : CreateUserRequest)
    (newId : Int) (now : DateTimeUtc) :
    List User × Except AppError (Nat × UserResponse) :=
  if validateCreate payload ≠ [] then
    (db, .error (.badRequest (validationErrorsMessage (validateCreate payload))))
  else
    match repo_create db payload newId now with
    | .ok (db', u) => (db', .ok (201, u.to_response))
    | .error e => (db, .error (classify_create_db_error e))

/-- handlers/users.rs: get_user_by_id — parse the path id as an i32, then
fetch; a failed parse is BadRequest before any repository call. -/
def get_user_handler (db : List User) (idStr : String) :
    Except AppError (Nat × UserResponse) :=
  match parseI32 idStr with
  | none => .error (.badRequest "Invalid user ID format")
  | some user_id =>
    match get_user_by_id db user_id with
    | some u => .ok (200, u.to_response)
    | none => .error (.notFound "User not found")

/-- handlers/users.rs: update_user — parse the path id, validate the
payload, then run the partial update; a missing row maps to NotFound. -/
def update_user_handler (db : List User) (idStr : String)
    (payload : UpdateUserRequest) :
    List User × Except AppError (Nat × UserResponse) :=
  match parseI32 idStr with
  | none => (db, .error (.badRequest "Invalid user ID format"))
  | some user_id =>
    if validateUpdate payload ≠ [] then
      (db, .error (.badRequest (validationErrorsMessage (validateUpdate payload))))
    else
      match update_user db user_id payload with
      | (db', some u) => (db', .ok (200, u.to_response))
      | (db', none) => (db', .error (.notFound "User not found"))

/-- handlers/users.rs: delete_user — parse the path id, then delete; a
false deletion result maps to NotFound, success to 204. -/
def delete_user_handler (db : List User) (idStr : String) :
    List User × Except AppError Nat :=
  match parseI32 idStr with
  | none => (db, .error (.badRequest "Invalid user ID format"))
  | some user_id =>
    match delete_user db user_id with
    | (db', true) => (db', .ok 204)
    | (db', false) => (db', .error (.notFound "User not found"))

/-- The effect of an UpdateUserRequest on a single row: each present field
overrides the stored value, each absent field keeps it. -/
def applyReq (req : UpdateUserRequest) (u : User) : User :=
  { u with
    name := req.name.getD u.name
    email := req.email.getD u.email
    active := req.active.getD u.active }

/-- Decidable equality for Except, for evaluating handler outcomes. -/
instance exceptDecEq {ε α : Type} [DecidableEq ε] [DecidableEq α] :
    DecidableEq (Except ε α) := fun x y =>
  match x, y with
  | .ok a, .ok b =>
    if h : a = b then .isTrue (by rw [h]) else .isFalse (fun hh => h (Except.ok.inj hh))
  | .error a, .error b =>
    if h : a = b then .isTrue (by rw [h]) else .isFalse (fun hh => h (Except.error.inj hh))
  | .ok _, .error _ => .isFalse (fun hh => Except.noConfusion hh)
  | .error _, .ok _ => .isFalse (fun hh => Except.noConfusion hh)

/-- A sample timestamp for concrete witnesses. -/
def t0 : DateTimeUtc := ⟨2024, 1, 1, 0, 0, 0, 0⟩

/-- A sample stored row for concrete witnesses. -/
def alice : User := ⟨1, "Alice", "alice@example.com", true, t0⟩

theorem string_eq_empty_iff (s : String) : s = "" ↔ s.length = 0 := by
  cases s with
  | mk data =>
    constructor
    · intro h
      rw [h]
      rfl
    · intro h
      have hd : data = [] := List.length_eq_zero.mp h
      rw [hd]

theorem update_user_eq_runUpdate (db : List User) (id : Int)
    (req : UpdateUserRequest)
    (h : req.name ≠ none ∨ req.email ≠ none ∨ req.active ≠ none) :
    update_user db id req = runUpdate db id (applyReq req) := by
  obtain ⟨n, e, a⟩ := req
  rcases n with _ | n <;> rcases e with _ | e <;> rcases a with _ | a <;> try rfl
  simp at h

theorem runUpdate_snd (db : List User) (id : Int) (f : User → User) (u : User)
    (h : get_user_by_id db id = some u) :
    (runUpdate db id f).2 = some (f u) := by
  rw [get_user_by_id] at h
  show (List.find? (fun u => u.id == id) db).map f = some (f u)
  rw [h, Option.map_some']

theorem runUpdate_readback (db : List User) (id : Int) (f : User → User)
    (hf : ∀ v, (f v).id = v.id) :
    get_user_by_id (runUpdate db id f).1 id =
      (db.find? (fun u => u.id == id)).map f := by
  induction db with
  | nil => rfl
  | cons v t ih =>
    show List.find? (fun u => u.id == id)
        ((if v.id == id then f v else v) ::
          t.map (fun u => if u.id == id then f u else u)) =
      (List.find? (fun u => u.id == id) (v :: t)).map f
    cases hbeq : (v.id == id) with
    | true =>
      have h2 : ((f v).id == id) = true := by rw [hf v]; exact hbeq
      rw [if_pos rfl]
      simp only [List.find?_cons, h2, hbeq, Option.map_some']
    | false =>
      rw [if_neg (by exact Bool.false_ne_true)]
      simp only [List.find?_cons, hbeq]
      exact ih

theorem runUpdate_frame (db : List User) (id : Int) (f : User → User)
    (v : User) (hv : v ∈ db) (hne : v.id ≠ id) :
    v ∈ (runUpdate db id f).1 := by
  have hb : ¬((v.id == id) = true) := by simpa using hne
  have hfix : (fun u => if u.id == id then f u else u) v = v := if_neg hb
  have hmem := List.mem_map_of_mem (fun u => if u.id == id then f u else u) hv
  rw [hfix] at hmem
  exact hmem

theorem map_eq_self_of {α : Type} (l : List α) (f : α → α)
    (h : ∀ x ∈ l, f x = x) : l.map f = l := by
  induction l with
  | nil => rfl
  | cons x t ih =>
    rw [List.map_cons, h x (by simp), ih (fun y hy => h y (by simp [hy]))]

theorem update_eq_of_none (db : List User) (id : Int) (req : UpdateUserRequest)
    (h : get_user_by_id db id = none) :
    update_user db id req = (db, none) := by
  rw [get_user_by_id] at h
  have hall : ∀ u ∈ db, ¬((u.id == id) = true) := List.find?_eq_none.mp h
  have hrun : ∀ f, runUpdate db id f = (db, none) := by
    intro f
    show (db.map (fun u => if u.id == id then f u else u),
      (List.find? (fun u => u.id == id) db).map f) = (db, none)
    rw [h, map_eq_self_of db _ (fun x hx => if_neg (hall x hx))]
    rfl
  obtain ⟨n, e, a⟩ := req
  rcases n with _ | n <;> rcases e with _ | e <;> rcases a with _ | a <;>
    simp [update_user, hrun, get_user_by_id, h]

theorem parse_none_handlers (s : String) (db : List User)
    (payload : UpdateUserRequest) (h : parseI32 s = none) :
    get_user_handler db s = .error (.badRequest "Invalid user ID format") ∧
    update_user_handler db s payload =
      (db, .error (.badRequest "Invalid user ID format")) ∧
    delete_user_handler db s =
      (db, .error (.badRequest "Invalid user ID format")) := by
  rw [get_user_handler, update_user_handler, delete_user_handler, h]
  exact ⟨rfl, rfl, rfl⟩

theorem natDigitsAux_append (fuel : Nat) :
    ∀ (n : Nat) (acc : List Char),
      natDigitsAux fuel n acc = natDigitsAux fuel n [] ++ acc := by
  induction fuel with
  | zero => intro n acc; rfl
  | succ fuel ih =>
    intro n acc
    by_cases h : n < 10
    · simp only [natDigitsAux, if_pos h]
      rfl
    · simp only [natDigitsAux, if_neg h]
      rw [ih (n / 10) (Nat.digitChar (n % 10) :: acc),
        ih (n / 10) [Nat.digitChar (n % 10)], List.append_assoc]
      rfl

theorem digitChar_isDigit (d : Nat) (h : d < 10) :
    (Nat.digitChar d).isDigit = true := by
  interval_cases d <;> decide

theorem digitChar_val (d : Nat) (h : d < 10) :
    (Nat.digitChar d).toNat - 48 = d := by
  interval_cases d <;> decide

theorem digitsVal_append_singleton (l : List Char) (c : Char) :
    digitsVal (l ++ [c]) = digitsVal l * 10 + (c.toNat - 48) := by
  simp [digitsVal, List.foldl_append]

theorem natDigitsAux_spec : ∀ fuel n, n < fuel →
    (natDigitsAux fuel n []).all Char.isDigit = true ∧
    natDigitsAux fuel n [] ≠ [] ∧
    digitsVal (natDigitsAux fuel n []) = n := by
  intro fuel
  induction fuel with
  | zero => intro n h; exact absurd h (Nat.not_lt_zero n)
  | succ fuel ih =>
    intro n hn
    by_cases h : n < 10
    · simp only [natDigitsAux, if_pos h]
      refine ⟨?_, by simp, ?_⟩
      · simp [digitChar_isDigit n h]
      · simp [digitsVal, digitChar_val n h]
    · simp only [natDigitsAux, if_neg h]
      rw [natDigitsAux_append]
      have hlt : n / 10 < fuel := by omega
      obtain ⟨ha, hne, hv⟩ := ih (n / 10) hlt
      refine ⟨?_, ?_, ?_⟩
      · rw [List.all_append]
        simp [ha, digitChar_isDigit (n % 10) (by omega)]
      · intro hcontra
        exact hne (List.append_eq_nil.mp hcontra).1
      · rw [digitsVal_append_singleton, hv, digitChar_val (n % 10) (by omega)]
        omega

theorem natDigits_all (n : Nat) : (natDigits n).all Char.isDigit = true :=
  (natDigitsAux_spec (n + 1) n (by omega)).1

theorem natDigits_ne (n : Nat) : natDigits n ≠ [] :=
  (natDigitsAux_spec (n + 1) n (by omega)).2.1

theorem digitsVal_natDigits (n : Nat) : digitsVal (natDigits n) = n :=
  (natDigitsAux_spec (n + 1) n (by omega)).2.2

theorem isDigit_ne_plus (c : Char) (h : c.isDigit = true) : ¬(c = '+') :=
  fun hh => by rw [hh] at h; exact absurd h (by decide)

theorem isDigit_ne_minus (c : Char) (h : c.isDigit = true) : ¬(c = '-') :=
  fun hh => by rw [hh] at h; exact absurd h (by decide)

theorem parseI32Core_digits (c : Char) (rest : List Char)
    (hdig : (c :: rest).all Char.isDigit = true)
    (hle : digitsVal (c :: rest) ≤ 2147483647) :
    parseI32Core (c :: rest) = some ((digitsVal (c :: rest) : Int)) := by
  obtain ⟨hc, hrest⟩ : c.isDigit = true ∧ rest.all Char.isDigit = true := by
    simpa using hdig
  rw [parseI32Core, if_neg (isDigit_ne_plus c hc), if_neg (isDigit_ne_minus c hc),
    if_pos hdig, i32InRange, if_pos (by omega)]

theorem parseI32Core_none_of_big (c : Char) (rest : List Char)
    (hdig : (c :: rest).all Char.isDigit = true)
    (hbig : 2147483647 < digitsVal (c :: rest)) :
    parseI32Core (c :: rest) = none := by
  obtain ⟨hc, hrest⟩ : c.isDigit = true ∧ rest.all Char.isDigit = true := by
    simpa using hdig
  rw [parseI32Core, if_neg (isDigit_ne_plus c hc), if_neg (isDigit_ne_minus c hc),
    if_pos hdig, i32InRange, if_neg (by omega)]

theorem parseI32Core_neg_digits (cs : List Char) (hne : cs ≠ [])
    (hdig : cs.all Char.isDigit = true) (hle : digitsVal cs ≤ 2147483648) :
    parseI32Core ('-' :: cs) = some (-(digitsVal cs : Int)) := by
  rw [parseI32Core, if_neg (by decide : ¬('-' = '+')), if_pos rfl,
    if_pos ⟨hne, hdig⟩, i32InRange, if_pos (by omega)]

theorem parseI32_none_of_big (s : String) (hne : s.toList ≠ [])
    (hdig : s.toList.all Char.isDigit = true)
    (hbig : 2147483647 < digitsVal s.toList) :
    parseI32 s = none := by
  obtain ⟨c, rest, hceq⟩ := List.exists_cons_of_ne_nil hne
  rw [hceq] at hdig hbig
  rw [parseI32, hceq]
  exact parseI32Core_none_of_big c rest hdig hbig

theorem parseI32_intToString (i : Int) (h1 : -2147483648 ≤ i)
    (h2 : i ≤ 2147483647) : parseI32 (intToString i) = some i := by
  by_cases hi : i < 0
  · rw [intToString, if_pos hi]
    show parseI32Core ('-' :: natDigits i.natAbs) = some i
    rw [parseI32Core_neg_digits _ (natDigits_ne _) (natDigits_all _)
      (by rw [digitsVal_natDigits]; omega)]
    rw [digitsVal_natDigits]
    rw [(by omega : -((i.natAbs : Int)) = i)]
  · rw [intToString, if_neg hi]
    have hval : digitsVal (natDigits i.natAbs) = i.natAbs := digitsVal_natDigits _
    have hle : digitsVal (natDigits i.natAbs) ≤ 2147483647 := by
      rw [hval]; omega
    have hall := natDigits_all i.natAbs
    obtain ⟨c, rest, hceq⟩ := List.exists_cons_of_ne_nil (natDigits_ne i.natAbs)
    rw [hceq] at hval hle hall
    show parseI32Core (natDigits i.natAbs) = some i
    rw [hceq, parseI32Core_digits c rest hall hle, hval]
    rw [(by omega : ((i.natAbs : Int)) = i)]

/-- Claim C1: for every update request with a nonempty present subset of
name, email, active and every stored row whose id matches, update_user
sets exactly the present fields to the requested values; the returned
user keeps every absent field, id and created_at at the stored values;
the row read back afterwards equals the returned user; rows with other
ids stay in the store. -/
theorem C1_partial_update_frame (db : List User) (id : Int)
    (req : UpdateUserRequest) (u : User)
    (hne : req.name ≠ none ∨ req.email ≠ none ∨ req.active ≠ none)
    (hu : get_user_by_id db id = some u) :
    ∃ u', (update_user db id req).2 = some u' ∧
      u'.name = req.name.getD u.name ∧
      u'.email = req.email.getD u.email ∧
      u'.active = req.active.getD u.active ∧
      u'.id = u.id ∧
      u'.created_at = u.created_at ∧
      get_user_by_id (update_user db id req).1 id = some u' ∧
      ∀ v ∈ db, v.id ≠ id → v ∈ (update_user db id req).1 := by
  refine ⟨applyReq req u, ?_, rfl, rfl, rfl, rfl, rfl, ?_, ?_⟩
  · rw [update_user_eq_runUpdate db id req hne]
    exact runUpdate_snd db id _ u hu
  · rw [update_user_eq_runUpdate db id req hne,
      runUpdate_readback db id (applyReq req) (fun v => rfl)]
    rw [get_user_by_id] at hu
    rw [hu, Option.map_some']
  · intro v hv hvne
    rw [update_user_eq_runUpdate db id req hne]
    exact runUpdate_frame db id _ v hv hvne

/-- Claim C1 witness: a concrete store, row and request satisfying the
hypotheses, with the conclusion instantiated there. -/
theorem C1_partial_update_frame_witness :
    ((some "Alicia" : Option String) ≠ none ∨
      (none : Option String) ≠ none ∨ (some false : Option Bool) ≠ none) ∧
    get_user_by_id [alice] 1 = some alice ∧
    (∃ u', (update_user [alice] 1 ⟨some "Alicia", none, some false⟩).2 = some u' ∧
      u'.name = (some "Alicia" : Option String).getD alice.name ∧
      u'.email = (none : Option String).getD alice.email ∧
      u'.active = (some false : Option Bool).getD alice.active ∧
      u'.id = alice.id ∧
      u'.created_at = alice.created_at ∧
      get_user_by_id (update_user [alice] 1 ⟨some "Alicia", none, some false⟩).1 1 =
        some u' ∧
      ∀ v ∈ [alice], v.id ≠ 1 →
        v ∈ (update_user [alice] 1 ⟨some "Alicia", none, some false⟩).1) :=
  ⟨Or.inl (by decide), rfl,
    C1_partial_update_frame [alice] 1 ⟨some "Alicia", none, some false⟩ alice
      (Or.inl (by decide)) rfl⟩

/-- Claim C2: the all-absent update request performs a fetch-by-id, leaves
the store unchanged, and returns the pre-call stored row when one exists;
it is a defined no-op. -/
theorem C2_all_absent_noop (db : List User) (id : Int) :
    update_user db id ⟨none, none, none⟩ = (db, get_user_by_id db id) ∧
    ∀ u, get_user_by_id db id = some u →
      (update_user db id ⟨none, none, none⟩).2 = some u :=
  ⟨rfl, fun _ h => h⟩

/-- Claim C2 witness at a concrete store. -/
theorem C2_all_absent_noop_witness :
    update_user [alice] 1 ⟨none, none, none⟩ = ([alice], get_user_by_id [alice] 1) ∧
    get_user_by_id [alice] 1 = some alice ∧
    (update_user [alice] 1 ⟨none, none, none⟩).2 = some alice :=
  ⟨(C2_all_absent_noop [alice] 1).1, rfl,
    (C2_all_absent_noop [alice] 1).2 alice rfl⟩

/-- Claim C5: when no stored row has the given id, get_user_by_id returns
none, update_user returns none (leaving the store unchanged), delete_user
returns false, and the handlers map these outcomes to NotFound, never to
an error. -/
theorem C5_missing_row (db : List User) (id : Int)
    (h : get_user_by_id db id = none) :
    (∀ req, update_user db id req = (db, none)) ∧
    delete_user db id = (db, false) ∧
    (∀ s, parseI32 s = some id →
      get_user_handler db s = .error (.notFound "User not found") ∧
      delete_user_handler db s = (db, .error (.notFound "User not found"))) ∧
    (∀ s req, parseI32 s = some id → validateUpdate req = [] →
      update_user_handler db s req = (db, .error (.notFound "User not found"))) := by
  have hupd : ∀ req, update_user db id req = (db, none) :=
    fun req => update_eq_of_none db id req h
  have hdel : delete_user db id = (db, false) := by
    rw [get_user_by_id] at h
    have hall : ∀ u ∈ db, ¬((u.id == id) = true) := List.find?_eq_none.mp h
    have hall' : ∀ u ∈ db, (u.id == id) = false := fun u hu => by
      simpa using hall u hu
    have hcount : db.countP (fun u => u.id == id) = 0 :=
      List.countP_eq_zero.mpr hall
    rw [delete_user, List.filter_eq_self.mpr (fun a ha => by simp [hall' a ha]),
      hcount]
    rfl
  refine ⟨hupd, hdel, ?_, ?_⟩
  · intro s hs
    constructor
    · simp [get_user_handler, hs, h]
    · simp [delete_user_handler, hs, hdel]
  · intro s req hs hv
    simp [update_user_handler, hs, hv, hupd req]

/-- Claim C5 witness at id 99999 on an empty store. -/
theorem C5_missing_row_witness :
    get_user_by_id ([] : List User) 99999 = none ∧
    update_user [] 99999 ⟨some "X", none, none⟩ = ([], none) ∧
    delete_user ([] : List User) 99999 = ([], false) ∧
    parseI32 "99999" = some 99999 ∧
    get_user_handler [] "99999" = .error (.notFound "User not found") ∧
    delete_user_handler [] "99999" = ([], .error (.notFound "User not found")) ∧
    update_user_handler [] "99999" ⟨none, none, none⟩ =
      ([], .error (.notFound "User not found")) :=
  ⟨rfl, (C5_missing_row [] 99999 rfl).1 _, (C5_missing_row [] 99999 rfl).2.1,
    by decide,
    ((C5_missing_row [] 99999 rfl).2.2.1 "99999" (by decide)).1,
    ((C5_missing_row [] 99999 rfl).2.2.1 "99999" (by decide)).2,
    (C5_missing_row [] 99999 rfl).2.2.2 "99999" ⟨none, none, none⟩ (by decide) rfl⟩

/-- Claim C6: delete_user returns true exactly when a row with the given
id was in the store (and was removed); a second delete on the resulting
store returns false. -/
theorem C6_delete_once (db : List User) (id : Int) :
    ((delete_user db id).2 = true ↔ ∃ u ∈ db, u.id = id) ∧
    (delete_user (delete_user db id).1 id).2 = false := by
  constructor
  · show decide (0 < db.countP (fun u => u.id == id)) = true ↔ _
    rw [decide_eq_true_iff, List.countP_pos_iff]
    constructor
    · rintro ⟨u, hu, hp⟩
      exact ⟨u, hu, by simpa using hp⟩
    · rintro ⟨u, hu, hp⟩
      exact ⟨u, hu, by simpa using hp⟩
  · show decide
      (0 < (db.filter (fun u => !(u.id == id))).countP (fun u => u.id == id)) = false
    rw [List.countP_filter]
    have hfun : (fun (a : User) => (a.id == id) && !(a.id == id)) =
        fun _ => false := by
      funext a
      exact Bool.and_not_self _
    rw [hfun, List.countP_false]
    rfl

/-- Claim C6 witness: deleting a stored row returns true, and a second
delete of the same id returns false. -/
theorem C6_delete_once_witness :
    (delete_user [alice] 1).2 = true ∧
    (delete_user (delete_user [alice] 1).1 1).2 = false :=
  ⟨(C6_delete_once [alice] 1).1.mpr ⟨alice, by simp, rfl⟩,
    (C6_delete_once [alice] 1).2⟩

/-- Claim C3: a persistence failure whose message contains a
uniqueness-violation indicator is classified as BadRequest with message
"Email address already exists" by both the create and the update
handlers; in particular, creating a user with an email already stored
yields exactly that BadRequest. -/
theorem C3_unique_violation (e : SqlxError)
    (h : strContains e.msg "duplicate key" = true ∨
      strContains e.msg "unique constraint" = true) :
    classify_create_db_error e = .badRequest "Email address already exists" ∧
    classify_update_db_error e = .badRequest "Email address already exists" ∧
    ∀ (db : List User) (req : CreateUserRequest) (newId : Int)
      (now : DateTimeUtc) (v : User), v ∈ db → v.email = req.email →
      validateCreate req = [] →
      create_user_handler db req newId now =
        (db, .error (.badRequest "Email address already exists")) := by
  have hb : (strContains e.msg "duplicate key" ||
      strContains e.msg "unique constraint") = true := by
    rcases h with h | h <;> simp [h]
  refine ⟨?_, ?_, ?_⟩
  · rw [classify_create_db_error, if_pos hb]
  · rw [classify_update_db_error, if_pos hb]
  · intro db req newId now v hv hve hval
    have hany : db.any (fun u => u.email == req.email) = true := by
      rw [List.any_eq_true]
      exact ⟨v, hv, by simpa using hve⟩
    have hrepo : repo_create db req newId now = .error ⟨dupKeyMsg⟩ := by
      rw [repo_create, if_pos hany]
    rw [create_user_handler, if_neg (by simp [hval]), hrepo]
    show (db, Except.error (classify_create_db_error ⟨dupKeyMsg⟩)) = _
    rw [classify_create_db_error, if_pos (by decide)]

/-- Claim C3 witness: the modelled duplicate-key message triggers the
classification, and a concrete duplicate-email create yields the
BadRequest. -/
theorem C3_unique_violation_witness :
    strContains dupKeyMsg "duplicate key" = true ∧
    classify_create_db_error ⟨dupKeyMsg⟩ =
      .badRequest "Email address already exists" ∧
    create_user_handler [alice] ⟨"Bob", "alice@example.com"⟩ 2 t0 =
      ([alice], .error (.badRequest "Email address already exists")) :=
  ⟨by decide,
    (C3_unique_violation ⟨dupKeyMsg⟩ (Or.inl (by decide))).1,
    (C3_unique_violation ⟨dupKeyMsg⟩ (Or.inl (by decide))).2.2
      [alice] ⟨"Bob", "alice@example.com"⟩ 2 t0 alice (by simp) rfl (by decide)⟩

/-- Claim C7: validation of a create request fails exactly when the name
is the empty string or the email fails the syntactic email check (no
trimming, no upper length bound), and on failure the create handler
returns BadRequest listing the field errors with the store untouched. -/
theorem C7_create_validation (req : CreateUserRequest) :
    (validateCreate req ≠ [] ↔ (req.name = "" ∨ validEmail req.email = false)) ∧
    ∀ (db : List User) (newId : Int) (now : DateTimeUtc),
      validateCreate req ≠ [] →
      create_user_handler db req newId now =
        (db, .error (.badRequest (validationErrorsMessage (validateCreate req)))) := by
  constructor
  · have hname : req.name = "" ↔ req.name.length < 1 := by
      rw [string_eq_empty_iff]
      omega
    rw [validateCreate]
    by_cases hn : req.name.length < 1 <;> cases he : validEmail req.email <;>
      simp [hn, he, hname]
  · intro db newId now hne
    rw [create_user_handler, if_pos hne]

/-- Claim C7 witness: empty name and syntactically invalid email fail
validation and produce the BadRequest without touching the store. -/
theorem C7_create_validation_witness :
    validateCreate ⟨"", "invalid-email"⟩ ≠ [] ∧
    (validateCreate ⟨"", "invalid-email"⟩ ≠ [] ↔
      ("" = "" ∨ validEmail "invalid-email" = false)) ∧
    create_user_handler [] ⟨"", "invalid-email"⟩ 1 t0 =
      ([], .error (.badRequest
        (validationErrorsMessage (validateCreate ⟨"", "invalid-email"⟩)))) :=
  ⟨by decide, (C7_create_validation ⟨"", "invalid-email"⟩).1,
    (C7_create_validation ⟨"", "invalid-email"⟩).2 [] 1 t0 (by decide)⟩

/-- Claim C8: every persistence failure not classified as a uniqueness
violation produces the same fixed Internal error: the classification and
the rendered response are identical for any two such raw errors, and the
response body carries only the constant generic message. -/
theorem C8_internal_error_uniform (e1 e2 : SqlxError)
    (h1 : strContains e1.msg "duplicate key" = false ∧
      strContains e1.msg "unique constraint" = false)
    (h2 : strContains e2.msg "duplicate key" = false ∧
      strContains e2.msg "unique constraint" = false) :
    classify_create_db_error e1 = classify_create_db_error e2 ∧
    classify_create_db_error e1 = .internalServerError "Failed to create user" ∧
    (classify_create_db_error e1).into_response =
      (500, ⟨false, "Failed to create user"⟩) := by
  have hc1 : classify_create_db_error e1 =
      .internalServerError "Failed to create user" := by
    rw [classify_create_db_error, if_neg (by simp [h1.1, h1.2])]
  have hc2 : classify_create_db_error e2 =
      .internalServerError "Failed to create user" := by
    rw [classify_create_db_error, if_neg (by simp [h2.1, h2.2])]
  exact ⟨hc1.trans hc2.symm, hc1, by rw [hc1]; rfl⟩

/-- Claim C8 witness: two unrelated raw store errors yield the same
generic Internal response. -/
theorem C8_internal_error_uniform_witness :
    strContains "connection reset by peer" "duplicate key" = false ∧
    strContains "connection reset by peer" "unique constraint" = false ∧
    strContains "statement timeout" "duplicate key" = false ∧
    strContains "statement timeout" "unique constraint" = false ∧
    classify_create_db_error ⟨"connection reset by peer"⟩ =
      classify_create_db_error ⟨"statement timeout"⟩ ∧
    (classify_create_db_error ⟨"connection reset by peer"⟩).into_response =
      (500, ⟨false, "Failed to create user"⟩) :=
  ⟨by decide, by decide, by decide, by decide,
    (C8_internal_error_uniform ⟨"connection reset by peer"⟩
      ⟨"statement timeout"⟩ ⟨by decide, by decide⟩ ⟨by decide, by decide⟩).1,
    (C8_internal_error_uniform ⟨"connection reset by peer"⟩
      ⟨"statement timeout"⟩ ⟨by decide, by decide⟩ ⟨by decide, by decide⟩).2.2⟩

/-- Claim C9: the response projection renders id as its decimal string
(the rendered string parses back to the same id for any 32-bit value) and
created_at as the RFC 3339 text, while name, email and active pass
through unchanged; the projection is total by construction. -/
theorem C9_response_projection (u : User) :
    (User.to_response u).id = intToString u.id ∧
    (User.to_response u).name = u.name ∧
    (User.to_response u).email = u.email ∧
    (User.to_response u).active = u.active ∧
    (User.to_response u).created_at = toRfc3339 u.created_at ∧
    (-2147483648 ≤ u.id → u.id ≤ 2147483647 →
      parseI32 (User.to_response u).id = some u.id) :=
  ⟨rfl, rfl, rfl, rfl, rfl, fun h1 h2 => parseI32_intToString u.id h1 h2⟩

/-- Claim C9 witness at a concrete user. -/
theorem C9_response_projection_witness :
    (-2147483648 ≤ alice.id ∧ alice.id ≤ 2147483647) ∧
    (User.to_response alice).id = "1" ∧
    (User.to_response alice).created_at = "2024-01-01T00:00:00+00:00" ∧
    parseI32 (User.to_response alice).id = some alice.id :=
  ⟨⟨by decide, by decide⟩, by decide, by decide,
    (C9_response_projection alice).2.2.2.2.2 (by decide) (by decide)⟩

/-- Claim C4 counterexample: the string "-5" does not denote a positive
integer, yet the get handler does not return BadRequest — the parse
succeeds and the repository is consulted, producing NotFound on an empty
store. -/
theorem C4_counterexample :
    parseI32 "-5" = some (-5) ∧
    ((-5 : Int) ≤ 0) ∧
    get_user_handler [] "-5" = .error (.notFound "User not found") ∧
    get_user_handler [] "-5" ≠ .error (.badRequest "Invalid user ID format") :=
  ⟨by decide, by decide, by decide, by decide⟩

/-- Claim C4 as amended: a path id that fails to parse as a 32-bit signed
integer yields BadRequest "Invalid user ID format" from all three
handlers with the store untouched; any string that parses as an i32 —
zero and negatives included — reaches the repository, whose lookup then
determines the outcome. -/
theorem C4_amended_id_parse (s : String) (db : List User)
    (payload : UpdateUserRequest) :
    (parseI32 s = none →
      get_user_handler db s = .error (.badRequest "Invalid user ID format") ∧
      update_user_handler db s payload =
        (db, .error (.badRequest "Invalid user ID format")) ∧
      delete_user_handler db s =
        (db, .error (.badRequest "Invalid user ID format"))) ∧
    (∀ n, parseI32 s = some n →
      get_user_handler db s =
        match get_user_by_id db n with
        | some u => .ok (200, u.to_response)
        | none => .error (.notFound "User not found")) := by
  constructor
  · intro h
    exact parse_none_handlers s db payload h
  · intro n h
    rw [get_user_handler, h]

/-- Claim C4 amended witness: a non-numeric id is rejected before the
repository, while a negative id reaches the repository lookup. -/
theorem C4_amended_id_parse_witness :
    parseI32 "abc" = none ∧
    get_user_handler [] "abc" = .error (.badRequest "Invalid user ID format") ∧
    parseI32 "-5" = some (-5) ∧
    get_user_handler [alice] "-5" = .error (.notFound "User not found") :=
  ⟨by decide,
    ((C4_amended_id_parse "abc" [] ⟨none, none, none⟩).1 (by decide)).1,
    by decide,
    ((C4_amended_id_parse "-5" [alice] ⟨none, none, none⟩).2 (-5)
      (by decide)).trans rfl⟩

/-- Claim C10: a numeric path id whose value exceeds the 32-bit signed
range fails the i32 parse, so the handlers return BadRequest
"Invalid user ID format" — not NotFound — before any repository call. -/
theorem C10_overflow_id (s : String) (db : List User)
    (payload : UpdateUserRequest) (hne : s.toList ≠ [])
    (hdig : s.toList.all Char.isDigit = true)
    (hbig : 2147483647 < digitsVal s.toList) :
    parseI32 s = none ∧
    get_user_handler db s = .error (.badRequest "Invalid user ID format") ∧
    update_user_handler db s payload =
      (db, .error (.badRequest "Invalid user ID format")) ∧
    delete_user_handler db s =
      (db, .error (.badRequest "Invalid user ID format")) := by
  have h := parseI32_none_of_big s hne hdig hbig
  exact ⟨h, parse_none_handlers s db payload h⟩

/-- Claim C10 witness at the spec's example id 99999999999. -/
theorem C10_overflow_id_witness :
    "99999999999".toList ≠ [] ∧
    "99999999999".toList.all Char.isDigit = true ∧
    2147483647 < digitsVal "99999999999".toList ∧
    parseI32 "99999999999" = none ∧
    get_user_handler [alice] "99999999999" =
      .error (.badRequest "Invalid user ID format") ∧
    delete_user_handler [alice] "99999999999" =
      ([alice], .error (.badRequest "Invalid user ID format")) :=
  ⟨by decide, by decide, by decide,
    (C10_overflow_id "99999999999" [alice] ⟨none, none, none⟩
      (by decide) (by decide) (by decide)).1,
    (C10_overflow_id "99999999999" [alice] ⟨none, none, none⟩
      (by decide) (by decide) (by decide)).2.1,
    (C10_overflow_id "99999999999" [alice] ⟨none, none, none⟩
      (by decide) (by decide) (by decide)).2.2.2⟩

end UserCrud
